import Mathlib

/-!
Verification development for the news-archive forum application (`src/app.py`,
`src/sanitize.py`).  The definitions below are a shallow embedding of the parts
of the program the claims talk about: the SHA-256 fingerprint used as the
idempotency key of the AI-summary cache, the retrying OpenAI HTTP client
`call_openai_with_prompt`, the `summarize_thread` and `analyze` request
handlers acting on an explicit relational state, and the timeline merge of the
`home` view.  Machine words are `Nat` values reduced modulo `2 ^ 32` exactly
where the source's 32-bit arithmetic wraps.
-/

/-! ## SHA-256 (the `hashlib.sha256(...).hexdigest()` calls of app.py) -/

/-- `2 ^ 32`, the modulus of all 32-bit words of SHA-256. -/
def M32 : Nat := 4294967296

/-- Right rotation of a 32-bit word (input assumed `< M32`). -/
def rotr32 (n w : Nat) : Nat := (w >>> n) ||| ((w <<< (32 - n)) % M32)

/-- SHA-256 big sigma 0. -/
def bsig0 (x : Nat) : Nat := rotr32 2 x ^^^ rotr32 13 x ^^^ rotr32 22 x

/-- SHA-256 big sigma 1. -/
def bsig1 (x : Nat) : Nat := rotr32 6 x ^^^ rotr32 11 x ^^^ rotr32 25 x

/-- SHA-256 small sigma 0. -/
def ssig0 (x : Nat) : Nat := rotr32 7 x ^^^ rotr32 18 x ^^^ (x >>> 3)

/-- SHA-256 small sigma 1. -/
def ssig1 (x : Nat) : Nat := rotr32 17 x ^^^ rotr32 19 x ^^^ (x >>> 10)

/-- SHA-256 choice function (`not x` is xor with the all-ones 32-bit word). -/
def ch32 (x y z : Nat) : Nat := (x &&& y) ^^^ ((x ^^^ (M32 - 1)) &&& z)

/-- SHA-256 majority function. -/
def maj32 (x y z : Nat) : Nat := (x &&& y) ^^^ (x &&& z) ^^^ (y &&& z)

/-- The eight 32-bit words of a SHA-256 hash state. -/
structure Hash8 where
  a : Nat
  b : Nat
  c : Nat
  d : Nat
  e : Nat
  f : Nat
  g : Nat
  h : Nat
deriving DecidableEq

/-- The 64 SHA-256 round constants. -/
def shaK : List Nat :=
  [1116352408, 1899447441, 3049323471, 3921009573, 961987163, 1508970993,
   2453635748, 2870763221, 3624381080, 310598401, 607225278, 1426881987,
   1925078388, 2162078206, 2614888103, 3248222580, 3835390401, 4022224774,
   264347078, 604807628, 770255983, 1249150122, 1555081692, 1996064986,
   2554220882, 2821834349, 2952996808, 3210313671, 3336571891, 3584528711,
   113926993, 338241895, 666307205, 773529912, 1294757372, 1396182291,
   1695183700, 1986661051, 2177026350, 2456956037, 2730485921, 2820302411,
   3259730800, 3345764771, 3516065817, 3600352804, 4094571909, 275423344,
   430227734, 506948616, 659060556, 883997877, 958139571, 1322822218,
   1537002063, 1747873779, 1955562222, 2024104815, 2227730452, 2361852424,
   2428436474, 2756734187, 3204031479, 3329325298]

/-- Pack big-endian groups of four bytes into 32-bit words. -/
def toWords : List Nat → List Nat
  | b0 :: b1 :: b2 :: b3 :: rest => (((b0 * 256 + b1) * 256 + b2) * 256 + b3) :: toWords rest
  | _ => []

/-- Extend the 16-word block to the 64-word message schedule (`n` more words). -/
def extendW : Nat → List Nat → List Nat
  | 0, ws => ws
  | n + 1, ws =>
    let t := ws.length
    let x := (ssig1 (ws.getD (t - 2) 0) + ws.getD (t - 7) 0 +
              ssig0 (ws.getD (t - 15) 0) + ws.getD (t - 16) 0) % M32
    extendW n (ws ++ [x])

/-- One SHA-256 round: consume a (constant, schedule-word) pair. -/
def roundStep (st : Hash8) (kw : Nat × Nat) : Hash8 :=
  let t1 := (st.h + bsig1 st.e + ch32 st.e st.f st.g + kw.1 + kw.2) % M32
  let t2 := (bsig0 st.a + maj32 st.a st.b st.c) % M32
  ⟨(t1 + t2) % M32, st.a, st.b, st.c, (st.d + t1) % M32, st.e, st.f, st.g⟩

/-- Compress one 64-byte block into the hash state. -/
def compressBlock (st : Hash8) (block : List Nat) : Hash8 :=
  let ws := extendW 48 (toWords block)
  let r := (shaK.zip ws).foldl roundStep st
  ⟨(st.a + r.a) % M32, (st.b + r.b) % M32, (st.c + r.c) % M32, (st.d + r.d) % M32,
   (st.e + r.e) % M32, (st.f + r.f) % M32, (st.g + r.g) % M32, (st.h + r.h) % M32⟩

/-- The 64-bit big-endian byte encoding of a message bit length. -/
def be64 (n : Nat) : List Nat :=
  [n >>> 56 % 256, n >>> 48 % 256, n >>> 40 % 256, n >>> 32 % 256,
   n >>> 24 % 256, n >>> 16 % 256, n >>> 8 % 256, n % 256]

/-- SHA-256 padding: a `0x80` byte, zeros to 56 mod 64, then the bit length. -/
def padMessage (msg : List Nat) : List Nat :=
  msg ++ [128] ++ List.replicate ((119 - msg.length % 64) % 64) 0 ++ be64 (msg.length * 8)

/-- Fold the compression function over the message, 64 bytes at a time.  The
fuel argument only bounds the recursion; it is instantiated with the byte
count, which always suffices since every step consumes 64 bytes. -/
def processBlocksFuel : Nat → Hash8 → List Nat → Hash8
  | 0, st, _ => st
  | _ + 1, st, [] => st
  | fuel + 1, st, bs => processBlocksFuel fuel (compressBlock st (bs.take 64)) (bs.drop 64)

/-- Fold the compression function over the padded message. -/
def processBlocks (st : Hash8) (bs : List Nat) : Hash8 := processBlocksFuel bs.length st bs

/-- The SHA-256 initial hash state. -/
def sha256Init : Hash8 :=
  ⟨1779033703, 3144134277, 1013904242, 2773480762, 1359893119, 2600822924, 528734635, 1541459225⟩

/-- SHA-256 of a byte sequence, as the final hash state. -/
def sha256Digest (msg : List Nat) : Hash8 := processBlocks sha256Init (padMessage msg)

/-- Lower-case hex digit for a nibble. -/
def hexDigit (n : Nat) : Char := if n < 10 then Char.ofNat (48 + n) else Char.ofNat (87 + n)

/-- The eight hex characters of one 32-bit word, most significant first. -/
def word32Hex (w : Nat) : List Char :=
  [hexDigit (w >>> 28 % 16), hexDigit (w >>> 24 % 16), hexDigit (w >>> 20 % 16),
   hexDigit (w >>> 16 % 16), hexDigit (w >>> 12 % 16), hexDigit (w >>> 8 % 16),
   hexDigit (w >>> 4 % 16), hexDigit (w % 16)]

/-- The 64 hex characters of a hash state. -/
def hash8Hex (st : Hash8) : List Char :=
  ([st.a, st.b, st.c, st.d, st.e, st.f, st.g, st.h].map word32Hex).join

/-- UTF-8 encoding of one character (Python `str.encode("utf-8")`, per byte). -/
def utf8Char (c : Char) : List Nat :=
  let n := c.toNat
  if n < 128 then [n]
  else if n < 2048 then [192 + n / 64, 128 + n % 64]
  else if n < 65536 then [224 + n / 4096, 128 + n / 64 % 64, 128 + n % 64]
  else [240 + n / 262144, 128 + n / 4096 % 64, 128 + n / 64 % 64, 128 + n % 64]

/-- UTF-8 bytes of a string. -/
def utf8Bytes (s : String) : List Nat := (s.data.map utf8Char).join

/-- `hashlib.sha256(s.encode("utf-8")).hexdigest()`. -/
def sha256Hex (s : String) : String := String.mk (hash8Hex (sha256Digest (utf8Bytes s)))

/-- Sanity check of the embedding against the standard SHA-256 test vector. -/
theorem sha256Hex_abc :
    sha256Hex "abc" = "ba7816bf8f01cfea414140de5dae2223b00361a396177a9cb410ff61f20015ad" := by
  rfl

/-! ## Fingerprint of a summarize request (app.py lines 594-603) -/

/-- The fixed style rotation of `_style_hint_for_thread` (app.py lines 470-476). -/
def STYLES : List String :=
  ["質問多めで柔らかく。断定は避ける。",
   "結論→根拠→一言質問の順で簡潔に。",
   "要点を3つだけ拾い、比喩なしで平易に。",
   "相手の感情に共感→事実→提案→短い問い。",
   "リスクとメリットを対にして述べる。語尾は落ち着いた口調。"]

/-- `_style_hint_for_thread` (app.py lines 468-478): index the fixed style list
by `(thread_id + latest_post_id) mod len(styles)`.  The Python indexing is
total because the index is a remainder; `getD` with an unused default mirrors
it. -/
def style_hint_for_thread (thread_id latest_post_id : Nat) : String :=
  STYLES.getD ((thread_id + latest_post_id) % STYLES.length) ""

/-- The canonical pre-image string `raw_for_hash` (app.py line 602). -/
def raw_for_hash (article_text : String) (latest_post_id : Nat)
    (recent_digest style_hint mode model : String) : String :=
  article_text ++ "\n#last=" ++ toString latest_post_id ++ "\n#recent=" ++ recent_digest ++
    "\n#style=" ++ style_hint ++ "\n#mode=" ++ mode ++ "\n#model=" ++ model

/-- `recent_digest` (app.py line 601): first 16 hex chars of sha-256 of the
joined recent-posts text. -/
def recent_digest_of (recent_text : String) : String := (sha256Hex recent_text).take 16

/-- `hash_key` (app.py lines 601-603): sha-256 hex digest of `raw_for_hash`. -/
def hash_key_of (article_text : String) (latest_post_id : Nat)
    (recent_text style_hint mode model : String) : String :=
  sha256Hex (raw_for_hash article_text latest_post_id (recent_digest_of recent_text)
    style_hint mode model)

/-- `recent_text` (app.py line 587): `"\n\n".join("- " + content)` over the
recent posts, newest first. -/
def recent_text_of (contents : List String) : String :=
  String.intercalate "\n\n" (contents.map (fun c => "- " ++ c))

/-- The spec's `GenerationRequest` (spec section 3); its fields are exactly the
values the handler feeds into `raw_for_hash`: `seed_text` is the first post's
text, `latest_item_id` the newest post id, `recent_context` the recent post
contents (newest first). -/
structure GenerationRequest where
  seed_text : String
  latest_item_id : Nat
  recent_context : List String
  style_hint : String
  mode : String
  model_id : String

/-- The fingerprint of a request, as computed by app.py lines 597-603. -/
def fingerprint (r : GenerationRequest) : String :=
  hash_key_of r.seed_text r.latest_item_id (recent_text_of r.recent_context)
    r.style_hint r.mode r.model_id

/-- The hex rendering of any hash state has exactly 64 characters. -/
theorem hash8Hex_length (st : Hash8) : (hash8Hex st).length = 64 := by
  simp [hash8Hex, word32Hex]

/-- Every sha-256 hex digest of the embedding has exactly 64 characters. -/
theorem sha256Hex_length (s : String) : (sha256Hex s).length = 64 := by
  simp [sha256Hex, String.length_mk, hash8Hex_length]

/-- C3: the fingerprint is a deterministic function of the request's fields
(seed_text, latest_item_id, recent_context, style_hint, mode, model_id), and
every fingerprint is a 64-character sha-256 hex digest. -/
theorem C3_fingerprint_deterministic_hex64 (r1 r2 : GenerationRequest)
    (h1 : r1.seed_text = r2.seed_text) (h2 : r1.latest_item_id = r2.latest_item_id)
    (h3 : r1.recent_context = r2.recent_context) (h4 : r1.style_hint = r2.style_hint)
    (h5 : r1.mode = r2.mode) (h6 : r1.model_id = r2.model_id) :
    fingerprint r1 = fingerprint r2 ∧ (fingerprint r1).length = 64 := by
  have hr : r1 = r2 := by cases r1; cases r2; simp_all
  refine ⟨by rw [hr], ?_⟩
  simp [fingerprint, hash_key_of, sha256Hex_length]

/-- C3 witness: the spec section 8 example request, fingerprinted twice. -/
theorem C3_fingerprint_witness :
    fingerprint ⟨"hello", 7, ["a", "b"], "S1", "conversation", "m1"⟩ =
      fingerprint ⟨"hello", 7, ["a", "b"], "S1", "conversation", "m1"⟩ ∧
    (fingerprint ⟨"hello", 7, ["a", "b"], "S1", "conversation", "m1"⟩).length = 64 :=
  C3_fingerprint_deterministic_hex64 ⟨"hello", 7, ["a", "b"], "S1", "conversation", "m1"⟩
    ⟨"hello", 7, ["a", "b"], "S1", "conversation", "m1"⟩ rfl rfl rfl rfl rfl rfl

/-- C9: style-hint selection is the pure function
`STYLES[(thread_id + latest_post_id) % K]` over the fixed ordered list of K = 5
style strings, so the returned hint is always one of those strings; and the
hint is an input to the fingerprint pre-image `raw_for_hash`, so changing the
hint (all other fields fixed) changes the fingerprint input. -/
theorem C9_style_hint_rotation :
    (∀ t l : Nat, style_hint_for_thread t l = STYLES.getD ((t + l) % STYLES.length) "" ∧
      style_hint_for_thread t l ∈ STYLES) ∧
    (∀ (a : String) (lid : Nat) (d mo mdl s1 s2 : String), s1 ≠ s2 →
      raw_for_hash a lid d s1 mo mdl ≠ raw_for_hash a lid d s2 mo mdl) := by
  constructor
  · intro t l
    refine ⟨rfl, ?_⟩
    have hb : ∀ i, i < STYLES.length → STYLES.getD i "" ∈ STYLES := by decide
    exact hb _ (Nat.mod_lt _ (by decide))
  · intro a lid d mo mdl s1 s2 hne h
    apply hne
    have hd := congrArg String.data h
    simp only [raw_for_hash, String.data_append, List.append_assoc] at hd
    apply String.ext
    exact List.append_cancel_right (List.append_cancel_left (List.append_cancel_left
      (List.append_cancel_left (List.append_cancel_left (List.append_cancel_left
      (List.append_cancel_left hd))))))

/-- C9 witness: two distinct hints produce distinct fingerprint pre-images. -/
theorem C9_style_hint_witness :
    ("A" : String) ≠ "B" ∧
    raw_for_hash "x" 1 "d" "A" "conversation" "m" ≠ raw_for_hash "x" 1 "d" "B" "conversation" "m" :=
  ⟨by decide, C9_style_hint_rotation.2 "x" 1 "d" "conversation" "m" "A" "B" (by decide)⟩

/-! ## The retrying OpenAI client `call_openai_with_prompt` (app.py lines 496-552)

The HTTP boundary is abstracted as a function from the attempt number to that
attempt's outcome: either a response (status code, raw body text used for error
details, and the extracted `choices[0].message.content`) or a network-level
exception.  Indexing by attempt also covers the payload mutation of the
empty-response retry path, whose corrective message only influences later
attempts. -/

/-- Outcome of one HTTP attempt against the chat-completion endpoint. -/
inductive AttemptOutcome where
  | response (status : Nat) (rawBody : String) (content : String)
  | exn (msg : String)
deriving DecidableEq

/-- Result of the client: the `(ok, text)` pair returned by the Python
function, plus the observable trace — how many attempts were consumed and the
back-off sleeps performed, in tenths of a second (the source sleeps
`1.2 * attempt`, `0.8 * attempt` and `1.0 * attempt` seconds). -/
structure GenOut where
  ok : Bool
  text : String
  attemptsMade : Nat
  sleeps : List Nat
deriving DecidableEq

/-- The transient status set of app.py line 533. -/
def transientStatuses : List Nat := [429, 500, 502, 503, 504]

/-- Drop leading whitespace characters from a character list. -/
def dropLeadingWS : List Char → List Char
  | [] => []
  | c :: cs => if c.isWhitespace then dropLeadingWS cs else c :: cs

/-- Python `str.strip()` (both-ends whitespace trim), written structurally so
that concrete instances reduce in the kernel. -/
def strTrim (s : String) : String :=
  String.mk ((dropLeadingWS ((dropLeadingWS s.data).reverse)).reverse)

/-- The retry loop of `call_openai_with_prompt` (app.py lines 523-552).  The
fuel counts the remaining iterations of `for attempt in range(1, retries + 1)`
and is always `retries + 1 - attempt`; the fuel-0 case is the fall-through
return of line 552, reached only when the range is empty. -/
def callLoop (endpoint : Nat → AttemptOutcome) (retries : Nat) :
    Nat → Nat → String → GenOut
  | 0, _, lastErr => ⟨false, "⚠️ 失敗しました: " ++ lastErr, 0, []⟩
  | fuel + 1, attempt, lastErr =>
    match endpoint attempt with
    | .response status rawBody content =>
      if 400 ≤ status then
        let err := "HTTP " ++ toString status ++ ": " ++ rawBody.take 500
        if status ∈ transientStatuses ∧ attempt < retries then
          let r := callLoop endpoint retries fuel (attempt + 1) err
          ⟨r.ok, r.text, r.attemptsMade + 1, 12 * attempt :: r.sleeps⟩
        else ⟨false, "⚠️ APIエラー: " ++ err, 1, []⟩
      else if strTrim content ≠ "" then ⟨true, strTrim content, 1, []⟩
      else if attempt < retries then
        let r := callLoop endpoint retries fuel (attempt + 1) lastErr
        ⟨r.ok, r.text, r.attemptsMade + 1, 8 * attempt :: r.sleeps⟩
      else ⟨false, "⚠️ 応答が空でした。", 1, []⟩
    | .exn msg =>
      if attempt < retries then
        let r := callLoop endpoint retries fuel (attempt + 1) msg
        ⟨r.ok, r.text, r.attemptsMade + 1, 10 * attempt :: r.sleeps⟩
      else ⟨false, "⚠️ 通信エラー: " ++ msg, 1, []⟩

/-- `call_openai_with_prompt` (app.py lines 496-552), with the credential
present (the missing-key early return of line 507 is out of the claims'
scope).  The prompt determines the payload the endpoint closure sends. -/
def call_openai_with_prompt (prompt : String) (endpoint : Nat → AttemptOutcome)
    (retries : Nat := 3) : GenOut :=
  callLoop endpoint retries retries 1 "unknown error"

/-- The failure text the loop produces when its last attempt fails. -/
def lastAttemptErrText : AttemptOutcome → String
  | .response status rawBody _ =>
    "⚠️ APIエラー: " ++ ("HTTP " ++ toString status ++ ": " ++ rawBody.take 500)
  | .exn msg => "⚠️ 通信エラー: " ++ msg

/-- Every transient status is an HTTP error status. -/
theorem transient_ge_400 : ∀ s ∈ transientStatuses, 400 ≤ s := by decide

/-- An always-transiently-failing endpoint drives the loop to consume all its
fuel and surface the last attempt's error detail. -/
theorem callLoop_always_transient (endpoint : Nat → AttemptOutcome) (retries : Nat)
    (hT : ∀ a, ∃ s b c, endpoint a = .response s b c ∧ s ∈ transientStatuses) :
    ∀ fuel attempt lastErr, 1 ≤ fuel → attempt + fuel = retries + 1 →
      (callLoop endpoint retries fuel attempt lastErr).ok = false ∧
      (callLoop endpoint retries fuel attempt lastErr).attemptsMade = fuel ∧
      (callLoop endpoint retries fuel attempt lastErr).text =
        lastAttemptErrText (endpoint retries) := by
  intro fuel
  induction fuel with
  | zero => intro attempt lastErr h1 _; omega
  | succ f ih =>
    intro attempt lastErr _ hsum
    obtain ⟨s, b, c, heq, hmem⟩ := hT attempt
    have hs400 : 400 ≤ s := transient_ge_400 s hmem
    rcases Nat.eq_zero_or_pos f with hf | hf
    · subst hf
      have hatt : attempt = retries := by omega
      simp only [callLoop, heq, if_pos hs400]
      rw [if_neg (by omega : ¬(s ∈ transientStatuses ∧ attempt < retries))]
      subst hatt
      simp [lastAttemptErrText, heq]
    · have hlt : attempt < retries := by omega
      have hrec := ih (attempt + 1) ("HTTP " ++ toString s ++ ": " ++ b.take 500) hf (by omega)
      simp only [callLoop, heq, if_pos hs400, if_pos (And.intro hmem hlt)]
      exact ⟨hrec.1, by rw [hrec.2.1], hrec.2.2⟩

/-- C5: the client respects its retry budget.  First conjunct: an endpoint
whose first two attempts fail with a transient status and whose third attempt
succeeds with non-blank text yields success (default budget of 3 attempts),
returning the trimmed text after exactly 3 attempts.  Second conjunct: an
endpoint that always fails transiently makes exactly `retries` attempts and
returns failure carrying the last attempt's error detail. -/
theorem C5_retry_budget (prompt : String) :
    (∀ (endpoint : Nat → AttemptOutcome) (s1 : Nat) (b1 c1 : String) (s2 : Nat)
        (b2 c2 : String) (s3 : Nat) (b3 c3 : String),
      endpoint 1 = .response s1 b1 c1 → s1 ∈ transientStatuses →
      endpoint 2 = .response s2 b2 c2 → s2 ∈ transientStatuses →
      endpoint 3 = .response s3 b3 c3 → s3 < 400 → strTrim c3 ≠ "" →
      (call_openai_with_prompt prompt endpoint).ok = true ∧
      (call_openai_with_prompt prompt endpoint).text = strTrim c3 ∧
      (call_openai_with_prompt prompt endpoint).attemptsMade = 3) ∧
    (∀ (endpoint : Nat → AttemptOutcome) (retries : Nat), 1 ≤ retries →
      (∀ a, ∃ s b c, endpoint a = .response s b c ∧ s ∈ transientStatuses) →
      (call_openai_with_prompt prompt endpoint retries).ok = false ∧
      (call_openai_with_prompt prompt endpoint retries).attemptsMade = retries ∧
      (call_openai_with_prompt prompt endpoint retries).text =
        lastAttemptErrText (endpoint retries)) := by
  constructor
  · intro endpoint s1 b1 c1 s2 b2 c2 s3 b3 c3 h1 m1 h2 m2 h3 hlt3 hc3
    have g1 : 400 ≤ s1 := transient_ge_400 s1 m1
    have g2 : 400 ≤ s2 := transient_ge_400 s2 m2
    have g3 : ¬ 400 ≤ s3 := by omega
    simp [call_openai_with_prompt, callLoop, h1, h2, h3, g1, g2, m1, m2, g3, hc3]
  · intro endpoint retries hr hT
    have hmain := callLoop_always_transient endpoint retries hT retries 1 "unknown error" hr
      (by omega)
    exact ⟨hmain.1, hmain.2.1, hmain.2.2⟩

/-- An endpoint failing transiently on attempts 1 and 2, succeeding on 3. -/
def budgetEndpoint : Nat → AttemptOutcome := fun a =>
  if a = 3 then .response 200 "" "hello" else .response 503 "busy" ""

/-- An endpoint failing transiently on every attempt. -/
def alwaysFailEndpoint : Nat → AttemptOutcome := fun _ => .response 503 "busy server" ""

/-- C5 witness: the two stub endpoints of the claim, evaluated concretely. -/
theorem C5_retry_budget_witness :
    (call_openai_with_prompt "p" budgetEndpoint).ok = true ∧
    (call_openai_with_prompt "p" budgetEndpoint).text = "hello" ∧
    (call_openai_with_prompt "p" budgetEndpoint).attemptsMade = 3 ∧
    (call_openai_with_prompt "p" alwaysFailEndpoint 2).ok = false ∧
    (call_openai_with_prompt "p" alwaysFailEndpoint 2).attemptsMade = 2 ∧
    (call_openai_with_prompt "p" alwaysFailEndpoint 2).text =
      "⚠️ APIエラー: " ++ ("HTTP 503: " ++ "busy server".take 500) := by
  have h1 := (C5_retry_budget "p").1 budgetEndpoint 503 "busy" "" 503 "busy" "" 200 "" "hello"
    rfl (by decide) rfl (by decide) rfl (by decide) (by decide)
  have h2 := (C5_retry_budget "p").2 alwaysFailEndpoint 2 (by decide)
    (fun _ => ⟨503, "busy server", "", rfl, by decide⟩)
  exact ⟨h1.1, h1.2.1.trans (by decide), h1.2.2, h2.1, h2.2.1, h2.2.2⟩

/-! ## Relational state and the request handlers

The store is modelled as explicit lists of rows with per-table autoincrement
counters, matching the sqlite tables `posts`, `messages` and `ai_summaries` of
`init_db` (app.py lines 101-196).  Query `ORDER BY id` clauses are modelled by
a stable insertion sort on the row lists, so no sortedness invariant on the
state is needed. -/

/-- A `posts` row (app.py lines 137-147). -/
structure PostRow where
  id : Nat
  thread_id : Nat
  user_id : Option Nat
  parent_post_id : Option Nat
  content : String
  is_hidden : Bool
  created_at : String
deriving DecidableEq

/-- A legacy `messages` row (app.py lines 114-122). -/
structure MessageRow where
  id : Nat
  thread_id : Nat
  role : String
  content : String
  created_at : String
deriving DecidableEq

/-- An `ai_summaries` row (app.py lines 152-161). -/
structure SummaryRow where
  id : Nat
  thread_id : Nat
  model : String
  mode : String
  content : String
  hash_key : String
  created_at : String
deriving DecidableEq

/-- The mutable store: the three row tables and their autoincrement counters. -/
structure DB where
  posts : List PostRow
  messages : List MessageRow
  summaries : List SummaryRow
  nextPostId : Nat
  nextMessageId : Nat
  nextSummaryId : Nat
deriving DecidableEq

/-- Stable insertion into a list sorted by `le` (new element goes after equal
keys, like Python's stable sort). -/
def insertLe (le : α → α → Bool) (x : α) : List α → List α
  | [] => [x]
  | y :: ys => if le y x then y :: insertLe le x ys else x :: y :: ys

/-- Stable insertion sort by `le`. -/
def sortLe (le : α → α → Bool) : List α → List α
  | [] => []
  | x :: xs => insertLe le x (sortLe le xs)

/-- `SELECT ... FROM posts WHERE thread_id=? ORDER BY id ASC`. -/
def postsByIdAsc (l : List PostRow) (tid : Nat) : List PostRow :=
  sortLe (fun a b => decide (a.id ≤ b.id)) (l.filter (fun p => p.thread_id == tid))

/-- The `ORDER BY id ASC LIMIT 1` first post of a thread (app.py line 572). -/
def firstPost (l : List PostRow) (tid : Nat) : Option PostRow :=
  (postsByIdAsc l tid).head?

/-- `SELECT ... ORDER BY id DESC LIMIT n` (app.py line 580). -/
def recentPosts (l : List PostRow) (tid n : Nat) : List PostRow :=
  (sortLe (fun a b => decide (b.id ≤ a.id)) (l.filter (fun p => p.thread_id == tid))).take n

/-- `INSERT INTO posts (thread_id, user_id, parent_post_id, content, created_at)`. -/
def insertPostRow (db : DB) (tid : Nat) (uid parent : Option Nat)
    (content now : String) : DB :=
  { db with posts := db.posts ++ [⟨db.nextPostId, tid, uid, parent, content, false, now⟩],
            nextPostId := db.nextPostId + 1 }

/-- `add_message` (app.py lines 678-686). -/
def add_message (db : DB) (tid : Nat) (role content now : String) : DB :=
  { db with messages := db.messages ++ [⟨db.nextMessageId, tid, role, content, now⟩],
            nextMessageId := db.nextMessageId + 1 }

/-- `INSERT INTO ai_summaries ...` under the unique index
`uq_ai_summaries_thread_hash` on `(thread_id, hash_key)` (app.py lines 162 and
636-638): the store refuses the row (`none`, the unique-constraint violation)
exactly when a row with the same pair already exists, atomically. -/
def insertSummaryRow (db : DB) (tid : Nat) (model mode content key now : String) :
    Option DB :=
  if db.summaries.any (fun s => s.thread_id == tid && s.hash_key == key) then none
  else some { db with
    summaries := db.summaries ++ [⟨db.nextSummaryId, tid, model, mode, content, key, now⟩],
    nextSummaryId := db.nextSummaryId + 1 }

/-- `SELECT content FROM ai_summaries WHERE thread_id=? AND hash_key=? LIMIT 1`
(app.py line 606). -/
def findSummary (l : List SummaryRow) (tid : Nat) (key : String) : Option SummaryRow :=
  l.find? (fun s => s.thread_id == tid && s.hash_key == key)

/-- The HTTP-level outcome of a handler. -/
inductive HandlerResult where
  | clientError (msg : String) (code : Nat)
  | redirectHome (tid : Nat)
deriving DecidableEq

/-- Outcome of `summarize_thread`: the updated store, the HTTP result, and
whether the external generator (`call_openai_with_prompt`) was invoked. -/
structure SummarizeOut where
  db : DB
  result : HandlerResult
  generatorCalled : Bool
deriving DecidableEq

/-- `N_RECENT` (app.py line 566). -/
def N_RECENT : Nat := 10

/-- The `summarize_thread` handler (app.py lines 563-618) as it executes: the
`return redirect(...)` on line 618 precedes the generation/cache-store branch
(lines 620-645), so the handler ends at the redirect on both the cache-hit and
the cache-miss path and never reaches the generator call.  `aiUid` is the
`ai@local` user id, `model` is `OPENAI_MODEL`, `now` the request timestamp. -/
def summarize_thread (db : DB) (tid : Nat) (aiUid : Option Nat) (model now : String) :
    SummarizeOut :=
  match firstPost db.posts tid with
  | none => ⟨db, .clientError "記事がありません" 400, false⟩
  | some first =>
    match recentPosts db.posts tid N_RECENT with
    | [] => ⟨db, .clientError "投稿がありません" 400, false⟩
    | r0 :: rest =>
      match findSummary db.summaries tid
          (hash_key_of first.content r0.id
            (recent_text_of ((r0 :: rest).map (fun r => r.content)))
            (style_hint_for_thread tid r0.id) "conversation" model) with
      | some hit =>
        ⟨insertPostRow db tid aiUid none ("【AIの整理】\n" ++ hit.content) now,
         .redirectHome tid, false⟩
      | none => ⟨db, .redirectHome tid, false⟩

/-! ## The `analyze` handler (app.py lines 784-817)

`sanitize.py` defines no `sanitize_text` symbol, so the optional import at
app.py line 66 fails and `sanitize_text` is bound to `_fallback_sanitize`
(app.py lines 49-54, 70).  The thread-resolution branch (create the thread
when the id is absent) is out of the claims' scope; `tid` is the resolved
thread id. -/

/-- A character matched by the control-character class `[\x00-\x08\x0b\x0c\x0e-\x1f]`. -/
def isCtlChar (c : Char) : Bool :=
  c.toNat ≤ 8 || c.toNat == 11 || c.toNat == 12 || (14 ≤ c.toNat && c.toNat ≤ 31)

/-- `_fallback_sanitize` (app.py lines 49-54): control characters become
spaces, then the ends are stripped. -/
def sanitize_text (s : String) : String :=
  strTrim (String.mk (s.data.map (fun c => if isCtlChar c then ' ' else c)))

/-- `build_conversation_prompt` (app.py lines 457-466). -/
def build_conversation_prompt (article comment : String) : String :=
  "あなたはニュースや社会の話題について気さくに会話する友人です。会話調で、6〜8文（250〜400字）に収めてください。断定は避け、わからない点はわからないと述べ、最後に短い一言の問いかけで締めてください。\n----\n【記事/要約】\n" ++
    article ++ "\n----\n【ユーザーのコメント】\n" ++ comment ++ "\n"

/-- The `analyze` handler (app.py lines 784-817) on the resolved thread: store
the user's blob as a `messages` row, call the generator, then store the
generated text as an `assistant` row on success or the error detail as a
`system` row on failure (lines 805-808). -/
def analyze (db : DB) (tid : Nat) (raw_article raw_comment : String)
    (endpoint : Nat → AttemptOutcome) (now : String) : DB :=
  let article := sanitize_text raw_article
  let comment := sanitize_text raw_comment
  let user_blob := "【記事】\n" ++ article ++ "\n\n【コメント】\n" ++ comment
  let db1 := add_message db tid "user" user_blob now
  let r := call_openai_with_prompt (build_conversation_prompt article comment) endpoint
  add_message db1 tid (if r.ok then "assistant" else "system") r.text now

/-! ## The timeline merge of the `home` view (app.py lines 749-769) -/

/-- One feed entry of the merged timeline. -/
structure FeedItem where
  role : String
  content : String
  created_at : String
deriving DecidableEq

/-- `get_history` (app.py lines 688-697): messages of the thread by id. -/
def get_history (db : DB) (tid : Nat) : List FeedItem :=
  (sortLe (fun a b => decide (a.id ≤ b.id))
      (db.messages.filter (fun m => m.thread_id == tid))).map
    (fun m => ⟨m.role, m.content, m.created_at⟩)

/-- `get_posts_for_feed` (app.py lines 731-742): visible posts of the thread
by id, rendered with role `user`. -/
def get_posts_for_feed (db : DB) (tid : Nat) : List FeedItem :=
  (sortLe (fun a b => decide (a.id ≤ b.id))
      (db.posts.filter (fun p => p.thread_id == tid && !p.is_hidden))).map
    (fun p => ⟨"user", p.content, p.created_at⟩)

/-- The merge of app.py lines 763-769: concatenate both sources and sort by
the `created_at` string (Python's stable `list.sort(key=...)`, modelled by the
stable insertion sort). -/
def merged_timeline (db : DB) (tid : Nat) : List FeedItem :=
  sortLe (fun a b => decide (a.created_at ≤ b.created_at))
    (get_history db tid ++ get_posts_for_feed db tid)

/-- Sortedness of a list under a boolean comparison. -/
def SortedBy (le : α → α → Bool) (l : List α) : Prop :=
  List.Chain' (fun a b => le a b = true) l

/-- Inserting into a sorted list keeps it sorted, for a total comparison; and
the head of the result is the new element or the old head. -/
theorem insertLe_sorted {le : α → α → Bool}
    (htot : ∀ a b, le a b = false → le b a = true) (x : α) :
    ∀ l, SortedBy le l → SortedBy le (insertLe le x l) ∧
      (∀ z, (insertLe le x l).head? = some z → z = x ∨ l.head? = some z) := by
  intro l
  induction l with
  | nil =>
    intro _
    exact ⟨by simp [insertLe, SortedBy], by simp [insertLe]⟩
  | cons y ys ih =>
    intro h
    rw [SortedBy, List.chain'_cons'] at h
    obtain ⟨hhead, htail⟩ := h
    obtain ⟨ihs, ihh⟩ := ih htail
    by_cases hle : le y x = true
    · constructor
      · rw [SortedBy]
        simp only [insertLe, hle, if_true]
        rw [List.chain'_cons']
        refine ⟨?_, ihs⟩
        intro z hz
        rcases ihh z hz with rfl | hz2
        · exact hle
        · exact hhead z hz2
      · intro z hz
        simp only [insertLe, hle, if_true, List.head?_cons, Option.some.injEq] at hz
        exact Or.inr (by simp [hz])
    · have hxy : le x y = true := htot y x (by simpa using hle)
      have hins : insertLe le x (y :: ys) = x :: y :: ys := by
        simp [insertLe, hle]
      constructor
      · rw [SortedBy, hins, List.chain'_cons']
        refine ⟨?_, ?_⟩
        · intro z hz
          have hz2 : y = z := by simpa using hz
          subst hz2; exact hxy
        · rw [List.chain'_cons']
          exact ⟨hhead, htail⟩
      · intro z hz
        rw [hins] at hz
        simp only [List.head?_cons, Option.some.injEq] at hz
        exact Or.inl hz.symm

/-- The insertion sort sorts, for a total comparison. -/
theorem sortLe_sorted {le : α → α → Bool}
    (htot : ∀ a b, le a b = false → le b a = true) :
    ∀ l, SortedBy le (sortLe le l) := by
  intro l
  induction l with
  | nil => simp [sortLe, SortedBy]
  | cons x xs ih => exact (insertLe_sorted htot x _ ih).1

/-- C8: the merged timeline is non-decreasing by the `created_at` timestamp
string, for every store and thread — hence non-decreasing by timestamp
whenever all timestamps share the fixed-width, zero-padded, UTC-normalized
ISO-8601 format, under which lexicographic string order coincides with
chronological order (spec section 4.3). -/
theorem C8_timeline_merge_sorted (db : DB) (tid : Nat) :
    List.Chain' (fun a b : FeedItem => a.created_at ≤ b.created_at)
      (merged_timeline db tid) := by
  have htot : ∀ a b : FeedItem, decide (a.created_at ≤ b.created_at) = false →
      decide (b.created_at ≤ a.created_at) = true := by
    intro a b h
    simp only [decide_eq_false_iff_not] at h
    simp [le_of_not_le h]
  have hs := sortLe_sorted htot (get_history db tid ++ get_posts_for_feed db tid)
  exact List.Chain'.imp (fun a b h => by simpa using h) hs

/-! ## Frame facts of the handlers -/

/-- `summarize_thread` on every path leaves `ai_summaries` and `messages`
unchanged and never invokes the generator: the early return of app.py line 618
precedes the only write to either table. -/
theorem summarize_thread_frame (db : DB) (tid : Nat) (aiUid : Option Nat) (model now : String) :
    (summarize_thread db tid aiUid model now).db.summaries = db.summaries ∧
    (summarize_thread db tid aiUid model now).db.messages = db.messages ∧
    (summarize_thread db tid aiUid model now).generatorCalled = false := by
  unfold summarize_thread
  split
  · exact ⟨rfl, rfl, rfl⟩
  · split
    · exact ⟨rfl, rfl, rfl⟩
    · split
      · simp [insertPostRow]
      · exact ⟨rfl, rfl, rfl⟩

/-- `analyze` writes only `messages` rows, never `posts` or `ai_summaries`. -/
theorem analyze_frame (db : DB) (tid : Nat) (a c : String)
    (endpoint : Nat → AttemptOutcome) (now : String) :
    (analyze db tid a c endpoint now).summaries = db.summaries ∧
    (analyze db tid a c endpoint now).posts = db.posts := by
  simp [analyze, add_message]

/-! ## Claim theorems about the handlers -/

/-- The store of the C1 failing input: thread 1 holds one post and the
`ai_summaries` cache is empty, so the summarize lookup misses. -/
def missDB : DB :=
  ⟨[⟨1, 1, some 7, none, "記事本文", false, "2024-01-01T00:00:00+00:00"⟩], [], [], 2, 1, 1⟩

/-- C1 (the code contradicts the claim): on this cache miss the handler
returns the redirect of app.py line 618 before the generation branch ever
runs — the generator is not invoked and nothing is inserted, while the claim
(and spec section 4.1 steps 4-5, reaffirmed as the intent by the spec's
section 9 defect note) requires the generator to run and its non-empty result
to be cached and returned. -/
theorem C1_cache_miss_dead_generation :
    summarize_thread missDB 1 (some 99) "gpt-4o-mini" "2024-01-02T00:00:00+00:00" =
      ⟨missDB, .redirectHome 1, false⟩ ∧
    missDB.summaries = [] :=
  ⟨rfl, rfl⟩

/-- C2: when the `(thread_id, fingerprint)` lookup hits a cached row, the
handler serves that row's stored content (the cache-originated post it
appends) and never invokes the external generator. -/
theorem C2_cache_hit_serves_cached_content (db : DB) (tid : Nat) (aiUid : Option Nat)
    (model now : String) (first r0 : PostRow) (rest : List PostRow) (hit : SummaryRow)
    (hfirst : firstPost db.posts tid = some first)
    (hrecent : recentPosts db.posts tid N_RECENT = r0 :: rest)
    (hhit : findSummary db.summaries tid
        (hash_key_of first.content r0.id
          (recent_text_of ((r0 :: rest).map (fun r => r.content)))
          (style_hint_for_thread tid r0.id) "conversation" model) = some hit) :
    (summarize_thread db tid aiUid model now).generatorCalled = false ∧
    (summarize_thread db tid aiUid model now).db.posts =
      db.posts ++ [⟨db.nextPostId, tid, aiUid, none, "【AIの整理】\n" ++ hit.content, false, now⟩] ∧
    (summarize_thread db tid aiUid model now).result = .redirectHome tid := by
  unfold summarize_thread
  rw [hfirst, hrecent]
  simp only [List.map_cons] at hhit
  simp [hhit, insertPostRow]

/-- C10: a cache-hit call leaves `ai_summaries` (and `messages`) unchanged and
appends exactly one `posts` row, authored by the AI user and holding the
cached text behind the `【AIの整理】` tag — so a hit is not timeline-idempotent. -/
theorem C10_cache_hit_appends_one_post (db : DB) (tid : Nat) (aiUid : Option Nat)
    (model now : String) (first r0 : PostRow) (rest : List PostRow) (hit : SummaryRow)
    (hfirst : firstPost db.posts tid = some first)
    (hrecent : recentPosts db.posts tid N_RECENT = r0 :: rest)
    (hhit : findSummary db.summaries tid
        (hash_key_of first.content r0.id
          (recent_text_of ((r0 :: rest).map (fun r => r.content)))
          (style_hint_for_thread tid r0.id) "conversation" model) = some hit) :
    (summarize_thread db tid aiUid model now).db.summaries = db.summaries ∧
    (summarize_thread db tid aiUid model now).db.messages = db.messages ∧
    (summarize_thread db tid aiUid model now).db.posts =
      db.posts ++ [⟨db.nextPostId, tid, aiUid, none, "【AIの整理】\n" ++ hit.content, false, now⟩] ∧
    (summarize_thread db tid aiUid model now).db.nextPostId = db.nextPostId + 1 := by
  unfold summarize_thread
  rw [hfirst, hrecent]
  simp only [List.map_cons] at hhit
  simp [hhit, insertPostRow]

/-- At most one `ai_summaries` row per `(thread_id, hash_key)` pair: no two
distinct positions of the table share the pair. -/
def UniqueSummaries (l : List SummaryRow) : Prop :=
  List.Pairwise (fun s1 s2 => ¬(s1.thread_id = s2.thread_id ∧ s1.hash_key = s2.hash_key)) l

/-- C7: the store's constrained insert preserves the uniqueness invariant and
refuses a row exactly when its `(thread_id, hash_key)` pair is already present
(the hard unique index of app.py line 162, not a check-then-insert), and both
handlers that touch the store preserve the invariant. -/
theorem C7_uniqueness_invariant (db : DB) (tid : Nat) (model mode content key now : String)
    (hU : UniqueSummaries db.summaries) :
    (∀ db2, insertSummaryRow db tid model mode content key now = some db2 →
      UniqueSummaries db2.summaries) ∧
    (insertSummaryRow db tid model mode content key now = none ↔
      ∃ s ∈ db.summaries, s.thread_id = tid ∧ s.hash_key = key) ∧
    (∀ aiUid now2, UniqueSummaries (summarize_thread db tid aiUid model now2).db.summaries) ∧
    (∀ a c endpoint now3, UniqueSummaries (analyze db tid a c endpoint now3).summaries) := by
  refine ⟨?_, ?_, ?_, ?_⟩
  · intro db2 hdb2
    unfold insertSummaryRow at hdb2
    split at hdb2
    · exact absurd hdb2 (by simp)
    · rename_i hany
      simp only [List.any_eq_true, Bool.and_eq_true, beq_iff_eq, not_exists, not_and] at hany
      injection hdb2 with hdb2
      subst hdb2
      rw [UniqueSummaries, List.pairwise_append]
      refine ⟨hU, by simp, ?_⟩
      intro s hs b hb
      simp only [List.mem_singleton] at hb
      subst hb
      intro hcon
      exact hany s hs hcon.1 hcon.2
  · constructor
    · intro hnone
      unfold insertSummaryRow at hnone
      split at hnone
      · rename_i hany
        simp only [List.any_eq_true, Bool.and_eq_true, beq_iff_eq] at hany
        obtain ⟨s, hs, h1, h2⟩ := hany
        exact ⟨s, hs, h1, h2⟩
      · exact absurd hnone (by simp)
    · intro hex
      obtain ⟨s, hs, h1, h2⟩ := hex
      unfold insertSummaryRow
      rw [if_pos]
      simp only [List.any_eq_true, Bool.and_eq_true, beq_iff_eq]
      exact ⟨s, hs, h1, h2⟩
  · intro aiUid now2
    rw [(summarize_thread_frame db tid aiUid model now2).1]
    exact hU
  · intro a c endpoint now3
    rw [(analyze_frame db tid a c endpoint now3).1]
    exact hU

/-- The always-failing generator endpoint of the C4 counterexample: a
non-transient HTTP 400 on every attempt. -/
def failEndpoint : Nat → AttemptOutcome := fun _ => .response 400 "bad request" ""

/-- The empty store. -/
def emptyDB : DB := ⟨[], [], [], 1, 1, 1⟩

/-- C4 counterexample: with a generator that fails on every attempt, `analyze`
still writes timeline entries — the generation call returns failure, yet the
`messages` table has grown (app.py lines 803 and 805-808 insert the user blob
and then the failure detail as a `system` row). -/
theorem C4_counterexample :
    (call_openai_with_prompt
        (build_conversation_prompt (sanitize_text "記事A") (sanitize_text "コメB"))
        failEndpoint).ok = false ∧
    (analyze emptyDB 1 "記事A" "コメB" failEndpoint "t1").messages ≠ emptyDB.messages := by
  constructor
  · rfl
  · intro h
    simp [analyze, add_message, emptyDB] at h

/-- C4 as amended: on generation failure no `ai_summaries` row and no `posts`
row is written by `analyze` (its only writes are `messages` rows), and
`summarize_thread` never writes `ai_summaries` on any path; but `analyze` does
record the user blob and then the failure detail as a role-`system` `messages`
row, so the timeline is not left untouched. -/
theorem C4_no_cache_on_failure_amended (db : DB) (tid : Nat) (a c : String)
    (endpoint : Nat → AttemptOutcome) (now : String) :
    (analyze db tid a c endpoint now).summaries = db.summaries ∧
    (analyze db tid a c endpoint now).posts = db.posts ∧
    ((call_openai_with_prompt
        (build_conversation_prompt (sanitize_text a) (sanitize_text c)) endpoint).ok = false →
      (analyze db tid a c endpoint now).messages = db.messages ++
        [⟨db.nextMessageId, tid, "user",
          "【記事】\n" ++ sanitize_text a ++ "\n\n【コメント】\n" ++ sanitize_text c, now⟩,
         ⟨db.nextMessageId + 1, tid, "system",
          (call_openai_with_prompt
            (build_conversation_prompt (sanitize_text a) (sanitize_text c)) endpoint).text, now⟩]) ∧
    (∀ aiUid model now2, (summarize_thread db tid aiUid model now2).db.summaries = db.summaries) := by
  refine ⟨(analyze_frame db tid a c endpoint now).1, (analyze_frame db tid a c endpoint now).2,
    ?_, ?_⟩
  · intro hfail
    simp [analyze, add_message, hfail]
  · intro aiUid model now2
    exact (summarize_thread_frame db tid aiUid model now2).1

/-- C4 witness: the amended claim evaluated at the empty store and the
always-failing endpoint. -/
theorem C4_no_cache_on_failure_witness :
    (analyze emptyDB 1 "記事A" "コメB" failEndpoint "t1").summaries = emptyDB.summaries ∧
    (analyze emptyDB 1 "記事A" "コメB" failEndpoint "t1").posts = emptyDB.posts ∧
    (analyze emptyDB 1 "記事A" "コメB" failEndpoint "t1").messages = emptyDB.messages ++
      [⟨emptyDB.nextMessageId, 1, "user",
        "【記事】\n" ++ sanitize_text "記事A" ++ "\n\n【コメント】\n" ++ sanitize_text "コメB", "t1"⟩,
       ⟨emptyDB.nextMessageId + 1, 1, "system",
        (call_openai_with_prompt
          (build_conversation_prompt (sanitize_text "記事A") (sanitize_text "コメB"))
          failEndpoint).text, "t1"⟩] :=
  have h := C4_no_cache_on_failure_amended emptyDB 1 "記事A" "コメB" failEndpoint "t1"
  ⟨h.1, h.2.1, h.2.2.1 (by rfl)⟩

/-- C6: classification of an HTTP response with status at least 400, at an
arbitrary point of the retry loop.  If the status is transient (429, 500, 502,
503, 504) and attempts remain, the client records a back-off sleep of
`1.2 * attempt` seconds (12 tenths times the attempt number — linear back-off
with base 1.2, app.py line 534) and continues with the next attempt; for any
other status at least 400 it returns failure immediately — one attempt
consumed, no sleep — with the error detail carrying the response body
(truncated to its first 500 characters, app.py lines 532 and 536; the body
appears in full whenever it has at most 500 characters). -/
theorem C6_http_error_classification (endpoint : Nat → AttemptOutcome)
    (retries fuel attempt : Nat) (lastErr : String) (s : Nat) (b c : String)
    (hresp : endpoint attempt = .response s b c) (h400 : 400 ≤ s) :
    (s ∈ transientStatuses → attempt < retries →
      callLoop endpoint retries (fuel + 1) attempt lastErr =
        ⟨(callLoop endpoint retries fuel (attempt + 1)
            ("HTTP " ++ toString s ++ ": " ++ b.take 500)).ok,
         (callLoop endpoint retries fuel (attempt + 1)
            ("HTTP " ++ toString s ++ ": " ++ b.take 500)).text,
         (callLoop endpoint retries fuel (attempt + 1)
            ("HTTP " ++ toString s ++ ": " ++ b.take 500)).attemptsMade + 1,
         12 * attempt :: (callLoop endpoint retries fuel (attempt + 1)
            ("HTTP " ++ toString s ++ ": " ++ b.take 500)).sleeps⟩) ∧
    (s ∉ transientStatuses →
      callLoop endpoint retries (fuel + 1) attempt lastErr =
        ⟨false, "⚠️ APIエラー: " ++ ("HTTP " ++ toString s ++ ": " ++ b.take 500), 1, []⟩) := by
  constructor
  · intro hmem hlt
    simp only [callLoop, hresp, if_pos h400, if_pos (And.intro hmem hlt)]
  · intro hnmem
    simp only [callLoop, hresp, if_pos h400]
    rw [if_neg (by tauto)]

/-- A store where thread 1 has one post and the cache already holds the row
keyed by the fingerprint that the summarize handler computes for it. -/
def hitDB : DB :=
  ⟨[⟨1, 1, some 7, none, "A", false, "t1"⟩], [],
   [⟨1, 1, "m", "conversation", "CACHED", 
     "99fbbada900f145095c25b09fe40f438270955f794f9e85206f79850a1ac3d53", "t0"⟩], 2, 1, 2⟩

set_option maxRecDepth 100000 in
/-- C2 witness: a concrete cache hit, with the stored key equal to the
handler's computed sha-256 fingerprint. -/
theorem C2_cache_hit_witness :
    (summarize_thread hitDB 1 (some 9) "m" "t2").generatorCalled = false ∧
    (summarize_thread hitDB 1 (some 9) "m" "t2").db.posts =
      hitDB.posts ++ [⟨hitDB.nextPostId, 1, some 9, none, "【AIの整理】\n" ++ "CACHED", false, "t2"⟩] ∧
    (summarize_thread hitDB 1 (some 9) "m" "t2").result = .redirectHome 1 :=
  C2_cache_hit_serves_cached_content hitDB 1 (some 9) "m" "t2"
    ⟨1, 1, some 7, none, "A", false, "t1"⟩ ⟨1, 1, some 7, none, "A", false, "t1"⟩ []
    ⟨1, 1, "m", "conversation", "CACHED",
      "99fbbada900f145095c25b09fe40f438270955f794f9e85206f79850a1ac3d53", "t0"⟩
    (by rfl) (by rfl) (by rfl)

/-- A second concrete hit store, for thread 2 under model `m2`. -/
def hitDB2 : DB :=
  ⟨[⟨1, 2, some 7, none, "B", false, "t1"⟩], [],
   [⟨1, 2, "m2", "conversation", "CACHED2",
     "f0aa9cf1c362351f0b7642b1cb440aa948e8334262dae0a79bb89819eded2c9f", "t0"⟩], 2, 1, 2⟩

set_option maxRecDepth 100000 in
/-- C10 witness: the concrete cache hit appends exactly one AI post and leaves
the cache table unchanged. -/
theorem C10_cache_hit_appends_witness :
    (summarize_thread hitDB2 2 (some 9) "m2" "t2").db.summaries = hitDB2.summaries ∧
    (summarize_thread hitDB2 2 (some 9) "m2" "t2").db.messages = hitDB2.messages ∧
    (summarize_thread hitDB2 2 (some 9) "m2" "t2").db.posts =
      hitDB2.posts ++ [⟨hitDB2.nextPostId, 2, some 9, none, "【AIの整理】\n" ++ "CACHED2", false, "t2"⟩] ∧
    (summarize_thread hitDB2 2 (some 9) "m2" "t2").db.nextPostId = hitDB2.nextPostId + 1 :=
  C10_cache_hit_appends_one_post hitDB2 2 (some 9) "m2" "t2"
    ⟨1, 2, some 7, none, "B", false, "t1"⟩ ⟨1, 2, some 7, none, "B", false, "t1"⟩ []
    ⟨1, 2, "m2", "conversation", "CACHED2",
      "f0aa9cf1c362351f0b7642b1cb440aa948e8334262dae0a79bb89819eded2c9f", "t0"⟩
    (by rfl) (by rfl) (by rfl)

/-- C7 witness: the invariant holds of the empty table and is preserved by a
concrete constrained insert. -/
theorem C7_uniqueness_witness :
    UniqueSummaries emptyDB.summaries ∧
    insertSummaryRow emptyDB 1 "m" "conversation" "text" "k" "t" =
      some ⟨[], [], [⟨1, 1, "m", "conversation", "text", "k", "t"⟩], 1, 1, 2⟩ ∧
    UniqueSummaries [⟨1, 1, "m", "conversation", "text", "k", "t"⟩] :=
  have h := C7_uniqueness_invariant emptyDB 1 "m" "conversation" "text" "k" "t" List.Pairwise.nil
  ⟨List.Pairwise.nil, rfl, h.1 ⟨[], [], [⟨1, 1, "m", "conversation", "text", "k", "t"⟩], 1, 1, 2⟩ rfl⟩

/-- An endpoint answering HTTP 429 on every attempt. -/
def rateLimitedEndpoint : Nat → AttemptOutcome := fun _ => .response 429 "slow down" ""

/-- An endpoint answering HTTP 404 on every attempt. -/
def notFoundEndpoint : Nat → AttemptOutcome := fun _ => .response 404 "nope" ""

/-- C6 witness: a transient 429 with attempts remaining sleeps 1.2 seconds and
retries; a permanent 404 fails at once with the body in the detail. -/
theorem C6_http_error_witness :
    callLoop rateLimitedEndpoint 3 1 1 "unknown error" =
      ⟨(callLoop rateLimitedEndpoint 3 0 2 ("HTTP " ++ toString 429 ++ ": " ++ "slow down".take 500)).ok,
       (callLoop rateLimitedEndpoint 3 0 2 ("HTTP " ++ toString 429 ++ ": " ++ "slow down".take 500)).text,
       (callLoop rateLimitedEndpoint 3 0 2 ("HTTP " ++ toString 429 ++ ": " ++ "slow down".take 500)).attemptsMade + 1,
       12 * 1 :: (callLoop rateLimitedEndpoint 3 0 2 ("HTTP " ++ toString 429 ++ ": " ++ "slow down".take 500)).sleeps⟩ ∧
    callLoop notFoundEndpoint 3 1 1 "unknown error" =
      ⟨false, "⚠️ APIエラー: " ++ ("HTTP " ++ toString 404 ++ ": " ++ "nope".take 500), 1, []⟩ :=
  ⟨(C6_http_error_classification rateLimitedEndpoint 3 0 1 "unknown error" 429 "slow down" ""
      rfl (by decide)).1 (by decide) (by decide),
   (C6_http_error_classification notFoundEndpoint 3 0 1 "unknown error" 404 "nope" ""
      rfl (by decide)).2 (by decide)⟩
